import Mathlib

/-!
Verification model of the YouTube Shorts VPH tracker (src/app.py).

Shallow embedding conventions:
* Instants are integers counting seconds (UTC).  The fixed IST offset
  (UTC+5:30) is 19800 seconds.  A "wall clock" value is an instant shifted
  by the IST offset, i.e. the number the `dd/mm/yyyy hh:mm:ss` strings
  denote.
* External library calls that parse or format strings
  (`isodate.parse_duration`, `datetime.fromisoformat`,
  `datetime.strptime`/`strftime`) are abstracted as function parameters:
  a parse is `String → Option Int` (`none` models the raised exception),
  a format is `Int → String`.
* Python floats are modelled by rationals (`ℚ`); the `f"{x:.2f}"` /
  `f"{x:.4f}"` formatting is modelled by decimal rounding half-to-even of
  the rational value.
* Fallible external calls return `Option`; an uncaught Python exception
  is modelled by an `Option` result of the whole function (`none`).
-/

set_option allowUnsafeReducibility true in
attribute [semireducible] Rat.mul Rat.add Rat.sub Rat.inv

/-- One persisted spreadsheet row: a list of cell strings. -/
abbrev Row := List String

/-- Python dict assignment `d[k] = v` on an association list kept in
insertion order: replace the binding in place if the key exists,
otherwise append it at the end. -/
def dset {α : Type} (l : List (String × α)) (k : String) (v : α) :
    List (String × α) :=
  match l with
  | [] => [(k, v)]
  | (k', v') :: t => if k' = k then (k, v) :: t else (k', v') :: dset t k v

/-- The fixed IST offset (UTC+5:30) in seconds, used throughout app.py as
`timezone(timedelta(hours=5, minutes=30))`. -/
def IST_OFFSET : Int := 19800

/-- Model of `iso8601_to_seconds` (src/app.py lines 115-123).  The external
`isodate.parse_duration(...).total_seconds()` call is abstracted as the
`parse_duration` argument giving the total seconds, `none` when parsing
raises (the `except` branch returns 0). -/
def iso8601_to_seconds (parse_duration : String → Option Int) (s : String) :
    Int :=
  match parse_duration s with
  | some secs => secs
  | none => 0

/-- The short-form check applied at src/app.py line 250:
`duration_secs <= 180`. -/
def is_short_form (duration_secs : Int) : Bool :=
  decide (duration_secs ≤ 180)

/-- Model of `get_midnight_ist_utc` (src/app.py lines 125-143): the UTC
instant of 00:00:00 IST of the current IST date.  `now` is the current UTC
instant; adding the offset gives IST wall seconds, flooring to a day and
subtracting the offset converts back to a UTC instant. -/
def get_midnight_ist_utc (now : Int) : Int :=
  Int.fdiv (now + IST_OFFSET) 86400 * 86400 - IST_OFFSET

/-- Model of `is_within_today` (src/app.py lines 145-156).  `fromiso`
abstracts `datetime.fromisoformat(s.replace("Z", "+00:00"))` as a UTC
instant, `none` when it raises (the `except` branch returns False). -/
def is_within_today (fromiso : String → Option Int) (now : Int)
    (published_at : String) : Bool :=
  match fromiso published_at with
  | none => false
  | some pub =>
    let midnight := get_midnight_ist_utc now
    decide (midnight ≤ pub ∧ pub < midnight + 86400)

/-- Input of `retry_youtube_call` (src/app.py lines 158-189): either a
pre-built HttpRequest (case A, has `.execute` and is not callable) or a
callable producing a request (case B).  Executing attempt `n` of the
underlying operation yields `Except.ok` (parsed JSON) or `Except.error`
(a raised `HttpError`); the attempt index models that the two executions
of a stateful request may behave differently. -/
inductive RetryInput (E R : Type) where
  | request (exec : Nat → Except E R)
  | callable (call : Nat → Except E R)

/-- The attempt function of a `RetryInput`. -/
def RetryInput.execOf {E R : Type} : RetryInput E R → (Nat → Except E R)
  | .request exec => exec
  | .callable call => call

/-- Result of the retry wrapper, together with the bookkeeping the claims
talk about: total `time.sleep` units slept and number of executions. -/
structure RetryResult (R : Type) where
  result : Option R
  sleepUnits : Nat
  attempts : Nat
deriving DecidableEq

/-- Model of `retry_youtube_call` (src/app.py lines 158-189): execute once;
on `HttpError` sleep 2 seconds and execute exactly once more; on a second
`HttpError` return `None`.  The wrapper itself never raises: every
`HttpError` of the wrapped operation is caught, which the total `Option`
return type expresses. -/
def retry_youtube_call {E R : Type} (inp : RetryInput E R) : RetryResult R :=
  match inp with
  | .request exec =>
    match exec 0 with
    | .ok r => ⟨some r, 0, 1⟩
    | .error _ =>
      match exec 1 with
      | .ok r => ⟨some r, 2, 2⟩
      | .error _ => ⟨none, 2, 2⟩
  | .callable call =>
    match call 0 with
    | .ok r => ⟨some r, 0, 1⟩
    | .error _ =>
      match call 1 with
      | .ok r => ⟨some r, 2, 2⟩
      | .error _ => ⟨none, 2, 2⟩

/-! ### Discovery engine (src/app.py lines 191-267) -/

/-- One entry of the channel response `items` list: the channel title
(`snippet.title`) and the uploads playlist id
(`contentDetails.relatedPlaylists.uploads`). -/
structure ChanInfo where
  title : String
  uploads : String
deriving DecidableEq

/-- One entry of a playlistItems page: `snippet.resourceId.videoId` and
`snippet.publishedAt`. -/
structure PlaylistEntry where
  videoId : String
  publishedAt : String
deriving DecidableEq

/-- One entry of a `videos().list(part="contentDetails,snippet")` response:
`contentDetails.duration` and `snippet.publishedAt`. -/
structure VidInfo where
  duration : String
  publishedAt : String
deriving DecidableEq

/-- The external YouTube Data API together with parsing/clock stdlib calls,
as seen by `discover_shorts`.  Every response field is the result AFTER the
retry wrapper: `none` means `retry_youtube_call` returned `None` (two
`HttpError`s).  `pages` gives the successive playlistItems page fetch
outcomes for an uploads playlist id (the `list_next` pagination). -/
structure YTEnv where
  chanResp : String → Option (List ChanInfo)
  pages : String → List (Option (List PlaylistEntry))
  vidResp : String → Option (List VidInfo)
  parse_duration : String → Option Int
  fromiso : String → Option Int
  now : Int

/-- The mutable state accumulated by `discover_shorts`:
`video_to_channel`, `video_to_published` (dicts) and `all_short_ids`
(a list). -/
structure DiscAccum where
  video_to_channel : List (String × String)
  video_to_published : List (String × Int)
  all_short_ids : List String
deriving DecidableEq

/-- The inner `for item in pl_resp.get("items", [])` loop
(src/app.py lines 233-255).  Result `none` models the uncaught exception
raised at line 252 when `datetime.fromisoformat` fails on the
`snippet.publishedAt` of a qualifying video (there is no `try` around it). -/
def process_items (env : YTEnv) (channel_title : String) :
    DiscAccum → List PlaylistEntry → Option DiscAccum
  | acc, [] => some acc
  | acc, item :: rest =>
    if is_within_today env.fromiso env.now item.publishedAt then
      match env.vidResp item.videoId with
      | none => process_items env channel_title acc rest
      | some [] => process_items env channel_title acc rest
      | some (v :: _) =>
        if is_short_form (iso8601_to_seconds env.parse_duration v.duration) then
          match env.fromiso v.publishedAt with
          | none => none
          | some pub_dt =>
            process_items env channel_title
              ⟨dset acc.video_to_channel item.videoId channel_title,
               dset acc.video_to_published item.videoId pub_dt,
               acc.all_short_ids ++ [item.videoId]⟩ rest
        else process_items env channel_title acc rest
    else process_items env channel_title acc rest

/-- The `while pl_req:` pagination loop (src/app.py lines 227-257).
Outer `none` = uncaught exception; `some none` = a page fetch returned
`None` after retry, which aborts the whole discovery with the failure
flag; `some (some acc)` = all pages of this playlist processed. -/
def process_pages (env : YTEnv) (channel_title : String) :
    DiscAccum → List (Option (List PlaylistEntry)) → Option (Option DiscAccum)
  | acc, [] => some (some acc)
  | _, none :: _ => some none
  | acc, some items :: rest =>
    match process_items env channel_title acc items with
    | none => none
    | some acc' => process_pages env channel_title acc' rest

/-- One iteration of the `for idx, channel_id in enumerate(CHANNEL_IDS)`
loop (src/app.py lines 206-260): fetch the channel snippet; a `None`
response or an empty `items` list aborts discovery (`some none`), else the
uploads playlist pages are walked. -/
def process_channel (env : YTEnv) (acc : DiscAccum) (channel_id : String) :
    Option (Option DiscAccum) :=
  match env.chanResp channel_id with
  | none => some none
  | some [] => some none
  | some (ci :: _) => process_pages env ci.title acc (env.pages ci.uploads)

/-- The channel loop over an ordered sequence of channel ids. -/
def process_channels (env : YTEnv) :
    DiscAccum → List String → Option (Option DiscAccum)
  | acc, [] => some (some acc)
  | acc, cid :: rest =>
    match process_channel env acc cid with
    | none => none
    | some none => some none
    | some (some acc') => process_channels env acc' rest

/-- The nine configured channel ids (src/app.py lines 52-62). -/
def CHANNEL_IDS : List String :=
  ["UC415bOPUcGSamy543abLmRA",
   "UCRzYN32xtBf3Yxsx5BvJWJw",
   "UCVOTBwF0vnSxMRIbfSE_K_g",
   "UCPk2s5c4R_d-EUUNvFFODoA",
   "UCwAdQUuPT6laN-AQR17fe1g",
   "UCA295QVkf9O1RQ8_-s3FVXg",
   "UCkw1tYo7k8t-Y99bOXuZwhg",
   "UCxgAuX3XZROujMmGphN_scA",
   "UCUUlw3anBIkbW9W44Y-eURw"]

/-- Return value of `discover_shorts`: the two dicts and the
`no_shorts_flag`.  The `logs` list of Streamlit display strings is not
modelled (it carries no data used by any caller logic). -/
structure DiscoverResult where
  video_to_channel : List (String × String)
  video_to_published : List (String × Int)
  no_shorts_flag : Bool
deriving DecidableEq

/-- Model of `discover_shorts` (src/app.py lines 191-267).  `none` models
an uncaught exception escaping the function. -/
def discover_shorts (env : YTEnv) : Option DiscoverResult :=
  match process_channels env ⟨[], [], []⟩ CHANNEL_IDS with
  | none => none
  | some none => some ⟨[], [], true⟩
  | some (some acc) =>
    if acc.all_short_ids = [] then some ⟨[], [], true⟩
    else some ⟨acc.video_to_channel, acc.video_to_published, false⟩

/-! ### Statistics fetch (src/app.py lines 269-296) -/

/-- The optional `statistics` fields of one video: each counter may be
missing from the JSON (`stat.get("viewCount", 0)` defaults). -/
structure StatFields where
  viewCount : Option Int
  likeCount : Option Int
  commentCount : Option Int
deriving DecidableEq

/-- One entry of a `videos().list(part="statistics")` response:
`item["id"]` and `item.get("statistics", {})` (the whole `statistics`
object may be absent). -/
structure StatItem where
  id : String
  statistics : Option StatFields
deriving DecidableEq

/-- The per-video counters recorded in `stats_dict`. -/
structure YTStats where
  viewCount : Int
  likeCount : Int
  commentCount : Int
deriving DecidableEq

/-- The dict value built for one response item (src/app.py lines 289-294):
every missing field silently defaults to 0. -/
def stat_entry (item : StatItem) : YTStats :=
  let stat := item.statistics.getD ⟨none, none, none⟩
  ⟨stat.viewCount.getD 0, stat.likeCount.getD 0, stat.commentCount.getD 0⟩

/-- Structural worker for the batching: `fuel` bounds the number of
batches (each batch consumes at least one element, so `l.length` suffices);
structural recursion keeps the definition kernel-reducible. -/
def chunks50Go {α : Type} (fuel : Nat) (l : List α) : List (List α) :=
  match fuel, l with
  | 0, _ => []
  | _, [] => []
  | fuel + 1, x :: xs => ((x :: xs).take 50) :: chunks50Go fuel ((x :: xs).drop 50)

/-- `video_ids[i : i + 50]` batching (src/app.py lines 278-279). -/
def chunks50 {α : Type} (l : List α) : List (List α) :=
  chunks50Go l.length l

/-- Model of `fetch_statistics` (src/app.py lines 269-296).  `resp` is the
after-retry response for one batch of ids; a `none` response skips that
batch (`if not resp: continue`). -/
def fetch_statistics (resp : List String → Option (List StatItem))
    (video_ids : List String) : List (String × YTStats) :=
  (chunks50 video_ids).foldl
    (fun stats_dict batch =>
      match resp batch with
      | none => stats_dict
      | some items =>
        items.foldl (fun d item => dset d item.id (stat_entry item)) stats_dict)
    []

/-! ### Metric formatting (the `f"{x:.2f}"` / `f"{x:.4f}"` cells) -/

/-- Round a rational to the nearest integer, ties to even (the rounding
CPython applies when formatting a float with a fixed number of decimals;
the metric values of the claims are exactly representable, so the
binary-float detour of the real implementation agrees). -/
def roundHalfEven (q : ℚ) : Int :=
  let f : Int := q.num.fdiv (q.den : Int)
  let frac : ℚ := q - (f : ℚ)
  if frac < 1/2 then f
  else if 1/2 < frac then f + 1
  else if f % 2 = 0 then f else f + 1

/-- Left-pad a digit string with zeros to the given width. -/
def padZeros (width : Nat) (s : String) : String :=
  String.mk (List.replicate (width - s.length) '0') ++ s

/-- Fixed-point decimal rendering with `digits` fractional digits,
modelling Python `f"{q:.2f}"` (`digits = 2`) and `f"{q:.4f}"`
(`digits = 4`). -/
def fmtFixed (digits : Nat) (q : ℚ) : String :=
  let scaled := roundHalfEven (q * ((10 ^ digits : Nat) : ℚ))
  let sign := if scaled < 0 then "-" else ""
  let ipart := scaled.natAbs / 10 ^ digits
  let fpart := scaled.natAbs % 10 ^ digits
  sign ++ toString ipart ++ "." ++ padZeros digits (toString fpart)

/-! ### The reconciler `run_once_and_append` (src/app.py lines 301-482) -/

/-- The tracking state rebuilt from the sheet (src/app.py lines 350-374):
`tracked_ids` (a set, modelled in insertion order), and the
`video_to_channel_past` / `video_to_published_past` dicts. -/
structure Tracked where
  tracked_ids : List String
  video_to_channel_past : List (String × String)
  video_to_published_past : List (String × Int)
deriving DecidableEq

/-- One iteration of the `for r in rows` reconstruction loop
(src/app.py lines 354-372): rows with fewer than 4 cells are skipped; the
first row of a video id fixes its channel and (when column 2 parses as
`dd/mm/yyyy hh:mm:ss` IST) its publish instant; later rows of the same id
are ignored.  `wallParse` abstracts `datetime.strptime` into IST wall
seconds, `none` when it raises (then the publish time is dropped but the
id stays tracked). -/
def build_tracked_step (wallParse : String → Option Int) (t : Tracked)
    (r : Row) : Tracked :=
  if r.length < 4 then t
  else
    let vid := r.getD 0 ""
    if vid ∈ t.tracked_ids then t
    else
      { tracked_ids := t.tracked_ids ++ [vid]
        video_to_channel_past := dset t.video_to_channel_past vid (r.getD 1 "")
        video_to_published_past :=
          match wallParse (r.getD 2 "") with
          | some wall => dset t.video_to_published_past vid (wall - IST_OFFSET)
          | none => t.video_to_published_past }

/-- The full reconstruction loop over the data rows read at step 1. -/
def build_tracked (wallParse : String → Option Int) (rows : List Row) :
    Tracked :=
  rows.foldl (build_tracked_step wallParse) ⟨[], [], []⟩

/-- The union with newly discovered Shorts (src/app.py lines 382-390).
`found` lists the discovered items as `(video id, channel title, publish
instant)`; `discover_shorts` always records `video_to_channel` and
`video_to_published` for exactly the same keys, which the triple encodes. -/
def union_discovered (t : Tracked) (found : List (String × String × Int)) :
    Tracked :=
  found.foldl
    (fun t x =>
      if x.1 ∈ t.tracked_ids then t
      else
        ⟨t.tracked_ids ++ [x.1],
         dset t.video_to_channel_past x.1 x.2.1,
         dset t.video_to_published_past x.1 x.2.2⟩)
    t

/-- The body of the `for vid in all_ids` metric-build loop
(src/app.py lines 415-450): skip if the id has no fetched stats or no
known publish instant, otherwise build the 9-cell row.  `now2 vid` is the
fresh `datetime.now(timezone.utc)` called at line 435 while building this
row — a separate clock read from the run-level `timestamp_str` instant.
`wallFmt` abstracts `strftime("%d/%m/%Y %H:%M:%S")` of an IST wall time. -/
def build_row (wallFmt : Int → String) (now2 : String → Int) (t : Tracked)
    (stats : List (String × YTStats)) (timestamp_str : String)
    (vid : String) : Option Row :=
  match stats.lookup vid with
  | none => none
  | some s =>
    match t.video_to_published_past.lookup vid with
    | none => none
    | some published_dt_utc =>
      let published_str := wallFmt (published_dt_utc + IST_OFFSET)
      let channel_title := (t.video_to_channel_past.lookup vid).getD "N/A"
      let viewCount := s.viewCount
      let likeCount := s.likeCount
      let commentCount := s.commentCount
      let delta_hours : ℚ :=
        max (((now2 vid - published_dt_utc : Int) : ℚ) / 3600) (1/3600)
      let vph : ℚ := (viewCount : ℚ) / delta_hours
      let engagement_rate : ℚ :=
        if 0 < viewCount then ((likeCount + commentCount : Int) : ℚ) / (viewCount : ℚ)
        else 0
      some [vid, channel_title, published_str, timestamp_str,
            toString viewCount, toString likeCount, toString commentCount,
            fmtFixed 2 vph, fmtFixed 4 engagement_rate]

/-- The `new_rows` list built by the metric loop (src/app.py lines 414-450). -/
def build_new_rows (wallFmt : Int → String) (now2 : String → Int)
    (t : Tracked) (stats : List (String × YTStats)) (timestamp_str : String)
    (all_ids : List String) : List Row :=
  all_ids.filterMap (build_row wallFmt now2 t stats timestamp_str)

/-- The `(video_id, timestamp)` pairs already present in the rows read at
step 1 (src/app.py lines 455-458).  Python collects them in a set; only
membership is ever used, so a list is an adequate model. -/
def existing_pairs (rows : List Row) : List (String × String) :=
  rows.filterMap
    (fun r => if 4 ≤ r.length then some (r.getD 0 "", r.getD 3 "") else none)

/-- Where the exception of the `try` block around the header
initialization (src/app.py lines 329-344) strikes; the store adapter is
taken to leave the sheet untouched on a call that raises. -/
inductive InitStage where
  | clearFailed
  | appendFailed
  | rereadFailed
deriving DecidableEq

/-- Environment of one `run_once_and_append` invocation: store adapter
outcomes, the discovery output, the statistics responses and the clock and
stdlib formatting calls. -/
structure RunEnv where
  wsOk : Bool
  readFail : Bool
  initFail : Option InitStage
  found : List (String × String × Int)
  no_shorts_flag : Bool
  statResp : List String → Option (List StatItem)
  appendFail : Bool
  now : Int
  now2 : String → Int
  wallFmt : Int → String
  wallParse : String → Option Int

/-- How a run ended. -/
inductive Outcome where
  | noWorksheet
  | readError
  | initError
  | noTracked
  | noStats
  | noNewRows
  | appendError
  | appended (n : Nat)
deriving DecidableEq

/-- Result of one run: the sheet afterwards, the rows handed to the single
`append_rows` batch call, and how the run ended. -/
structure RunResult where
  sheet : List Row
  appendedRows : List Row
  outcome : Outcome
deriving DecidableEq

/-- The header row written by the lazy schema initialization
(src/app.py lines 331-341). -/
def SHEET_HEADER : Row :=
  ["video_id", "channel_title", "published_at", "timestamp",
   "viewCount", "likeCount", "commentCount", "vph", "engagement_rate"]

/-- The tracking state after step 2's union: the reconstruction of the
rows, merged with the discovered items unless `no_shorts_flag` is set
(src/app.py lines 378-392). -/
def tracked_after_union (env : RunEnv) (rows : List Row) : Tracked :=
  let t0 := build_tracked env.wallParse rows
  if env.no_shorts_flag then t0 else union_discovered t0 env.found

/-- The `stats` dict of step 3 for a run (src/app.py line 401):
statistics fetched for `all_ids = list(tracked_ids)`. -/
def stats_for (env : RunEnv) (rows : List Row) : List (String × YTStats) :=
  fetch_statistics env.statResp (tracked_after_union env rows).tracked_ids

/-- The shared observation timestamp string of a run
(src/app.py lines 410-411). -/
def ts_of (env : RunEnv) : String :=
  env.wallFmt (env.now + IST_OFFSET)

/-- The `new_rows` of a run as a function of the rows read at step 1. -/
def new_rows_for (env : RunEnv) (rows : List Row) : List Row :=
  build_new_rows env.wallFmt env.now2 (tracked_after_union env rows)
    (stats_for env rows) (ts_of env) (tracked_after_union env rows).tracked_ids

/-- The `filtered_rows` of step 5 (src/app.py lines 460-468): drop every
new row whose `(video_id, timestamp)` pair already exists. -/
def filtered_for (env : RunEnv) (rows : List Row) : List Row :=
  (new_rows_for env rows).filter
    (fun r => decide ((r.getD 0 "", r.getD 3 "") ∉ existing_pairs rows))

/-- Steps 1b-6 of `run_once_and_append` (src/app.py lines 350-482), after
the sheet has been read and the header dealt with: `store` is the current
persisted sheet, `rows` the data rows below the header. -/
def run_core (env : RunEnv) (store rows : List Row) : RunResult :=
  if (tracked_after_union env rows).tracked_ids = [] then
    ⟨store, [], .noTracked⟩
  else if stats_for env rows = [] then ⟨store, [], .noStats⟩
  else
    let filtered := filtered_for env rows
    if filtered = [] then ⟨store, [], .noNewRows⟩
    else if env.appendFail then ⟨store, [], .appendError⟩
    else ⟨store ++ filtered, filtered, .appended filtered.length⟩

/-- Model of `run_once_and_append` (src/app.py lines 301-482) acting on the
persisted sheet.  A missing worksheet or a failing `get_all_values` aborts
with the sheet untouched; a header with fewer than 9 cells (or an empty
sheet) triggers the lazy schema initialization, which CLEARS the sheet and
writes the fixed header before the run proceeds on the re-read (empty)
data rows. -/
def run_once_and_append (env : RunEnv) (sheet : List Row) : RunResult :=
  if env.wsOk = false then ⟨sheet, [], .noWorksheet⟩
  else if env.readFail = true then ⟨sheet, [], .readError⟩
  else
    let header := sheet.headD []
    if header = [] ∨ header.length < 9 then
      match env.initFail with
      | some .clearFailed => ⟨sheet, [], .initError⟩
      | some .appendFailed => ⟨[], [], .initError⟩
      | some .rereadFailed => ⟨[SHEET_HEADER], [], .initError⟩
      | none => run_core env [SHEET_HEADER] []
    else run_core env sheet sheet.tail

/-- Iterated runs (the hourly scheduler repeatedly invoking the
reconciler), each with its own environment. -/
def run_many (envs : List RunEnv) (sheet : List Row) : List Row :=
  envs.foldl (fun s e => (run_once_and_append e s).sheet) sheet

/-- A sheet whose header row is present and has the full 9 columns, so a
run takes the normal path instead of the schema initialization. -/
def header_ok (sheet : List Row) : Prop :=
  sheet.headD [] ≠ [] ∧ 9 ≤ (sheet.headD []).length

instance (sheet : List Row) : Decidable (header_ok sheet) := by
  unfold header_ok; infer_instance

/-! ### Claim C5: the retry wrapper -/

/-- C5: for every operation passed to `retry_youtube_call` (pre-built
request or callable alike): a first successful execution returns its
result with no sleep and a single attempt; a first `HttpError` is followed
by a fixed 2-second sleep and exactly one re-execution, whose result is
returned on success and turned into `None` on a second `HttpError`; there
are never more than two executions, hence never more than one retry, and
the wrapper always returns (the `Option` result type carries the "no
result" signal instead of an exception). -/
theorem retry_call_policy {E R : Type} (inp : RetryInput E R) :
    (∀ r, inp.execOf 0 = .ok r → retry_youtube_call inp = ⟨some r, 0, 1⟩)
    ∧ (∀ e, inp.execOf 0 = .error e →
        (retry_youtube_call inp).sleepUnits = 2
        ∧ (retry_youtube_call inp).attempts = 2
        ∧ (∀ r, inp.execOf 1 = .ok r → (retry_youtube_call inp).result = some r)
        ∧ (∀ e2, inp.execOf 1 = .error e2 →
            (retry_youtube_call inp).result = none))
    ∧ 1 ≤ (retry_youtube_call inp).attempts
    ∧ (retry_youtube_call inp).attempts ≤ 2 := by
  cases inp with
  | request exec =>
    refine ⟨?_, ?_, ?_, ?_⟩
    · intro r h
      simp only [retry_youtube_call, RetryInput.execOf] at *
      rw [h]
    · intro e h
      simp only [retry_youtube_call, RetryInput.execOf] at *
      rw [h]
      refine ⟨?_, ?_, ?_, ?_⟩
      · cases h1 : exec 1 <;> simp
      · cases h1 : exec 1 <;> simp
      · intro r h1; rw [h1]
      · intro e2 h1; rw [h1]
    · simp only [retry_youtube_call]
      cases h0 : exec 0 <;> [skip; simp] <;> cases h1 : exec 1 <;> simp
    · simp only [retry_youtube_call]
      cases h0 : exec 0 <;> [skip; simp] <;> cases h1 : exec 1 <;> simp
  | callable call =>
    refine ⟨?_, ?_, ?_, ?_⟩
    · intro r h
      simp only [retry_youtube_call, RetryInput.execOf] at *
      rw [h]
    · intro e h
      simp only [retry_youtube_call, RetryInput.execOf] at *
      rw [h]
      refine ⟨?_, ?_, ?_, ?_⟩
      · cases h1 : call 1 <;> simp
      · cases h1 : call 1 <;> simp
      · intro r h1; rw [h1]
      · intro e2 h1; rw [h1]
    · simp only [retry_youtube_call]
      cases h0 : call 0 <;> [skip; simp] <;> cases h1 : call 1 <;> simp
    · simp only [retry_youtube_call]
      cases h0 : call 0 <;> [skip; simp] <;> cases h1 : call 1 <;> simp

/-- A concrete operation whose first execution raises and whose second
succeeds with 7. -/
def retryW : RetryInput String Nat :=
  .request (fun n => if n = 0 then .error "boom" else .ok 7)

/-- Witness for C5: at `retryW` the wrapper sleeps 2 units, executes
twice, and returns the second attempt's result. -/
theorem retry_call_policy_witness :
    (retry_youtube_call retryW).sleepUnits = 2
    ∧ (retry_youtube_call retryW).attempts = 2
    ∧ (retry_youtube_call retryW).result = some 7 :=
  ⟨((retry_call_policy retryW).2.1 "boom" rfl).1,
   ((retry_call_policy retryW).2.1 "boom" rfl).2.1,
   ((retry_call_policy retryW).2.1 "boom" rfl).2.2.1 7 rfl⟩

/-! ### Claim C6: the today window -/

/-- C6: `is_within_today` accepts exactly the parsed instants `t` with
`todayWindowStart ≤ t < todayWindowStart + 24h` and returns false on
unparseable input; `get_midnight_ist_utc now` is 00:00:00 of the current
IST date as a UTC instant (it lies at most a day before `now` and its IST
wall time is an exact multiple of 86400); the boundary instant itself is
accepted, one second before it and the instant exactly 24h after it are
rejected. -/
theorem within_today_window (fromiso : String → Option Int) (now : Int)
    (s : String) :
    (∀ t, fromiso s = some t →
      (is_within_today fromiso now s = true ↔
        get_midnight_ist_utc now ≤ t ∧ t < get_midnight_ist_utc now + 86400))
    ∧ (fromiso s = none → is_within_today fromiso now s = false)
    ∧ (get_midnight_ist_utc now ≤ now
       ∧ now < get_midnight_ist_utc now + 86400
       ∧ (get_midnight_ist_utc now + IST_OFFSET) % 86400 = 0)
    ∧ (fromiso s = some (get_midnight_ist_utc now) →
        is_within_today fromiso now s = true)
    ∧ (fromiso s = some (get_midnight_ist_utc now - 1) →
        is_within_today fromiso now s = false)
    ∧ (fromiso s = some (get_midnight_ist_utc now + 86400) →
        is_within_today fromiso now s = false) := by
  have hiff : ∀ t, fromiso s = some t →
      (is_within_today fromiso now s = true ↔
        get_midnight_ist_utc now ≤ t ∧ t < get_midnight_ist_utc now + 86400) := by
    intro t h
    simp only [is_within_today, h, decide_eq_true_eq]
  refine ⟨hiff, ?_, ?_, ?_, ?_, ?_⟩
  · intro h
    simp only [is_within_today, h]
  · unfold get_midnight_ist_utc IST_OFFSET
    rw [Int.fdiv_eq_ediv _ (by omega)]
    refine ⟨by omega, by omega, by omega⟩
  · intro h
    exact (hiff _ h).mpr (by omega)
  · intro h
    rcases Bool.eq_false_or_eq_true (is_within_today fromiso now s) with hb | hb
    · exact absurd ((hiff _ h).mp hb) (by omega)
    · exact hb
  · intro h
    rcases Bool.eq_false_or_eq_true (is_within_today fromiso now s) with hb | hb
    · exact absurd ((hiff _ h).mp hb) (by omega)
    · exact hb

/-- A concrete `fromisoformat` oracle for the C6 witness: "mid" parses to
the window boundary for `now = 1234`, "pre" to one second before it,
"next" to exactly 24h after it, and anything else fails to parse. -/
def fromisoW (s : String) : Option Int :=
  if s = "mid" then some (get_midnight_ist_utc 1234)
  else if s = "pre" then some (get_midnight_ist_utc 1234 - 1)
  else if s = "next" then some (get_midnight_ist_utc 1234 + 86400)
  else none

/-- Witness for C6 at `now = 1234`: boundary accepted, the second before
and the 24h mark rejected, unparseable input rejected. -/
theorem within_today_window_witness :
    is_within_today fromisoW 1234 "mid" = true
    ∧ is_within_today fromisoW 1234 "pre" = false
    ∧ is_within_today fromisoW 1234 "next" = false
    ∧ is_within_today fromisoW 1234 "junk" = false :=
  ⟨(within_today_window fromisoW 1234 "mid").2.2.2.1 rfl,
   (within_today_window fromisoW 1234 "pre").2.2.2.2.1 rfl,
   (within_today_window fromisoW 1234 "next").2.2.2.2.2 rfl,
   (within_today_window fromisoW 1234 "junk").2.1 rfl⟩

/-! ### Claim C7: short-form classification -/

/-- C7: the classification applied to a duration string accepts it exactly
when the parsed total seconds are at most 180 — in particular a parsed
duration of exactly 180 seconds is accepted and one of 181 seconds is
rejected — and a parse failure is converted to 0 seconds, hence
classified short-form. -/
theorem short_form_threshold (parse_duration : String → Option Int)
    (s : String) :
    (is_short_form (iso8601_to_seconds parse_duration s) = true ↔
      iso8601_to_seconds parse_duration s ≤ 180)
    ∧ (parse_duration s = some 180 →
        is_short_form (iso8601_to_seconds parse_duration s) = true)
    ∧ (parse_duration s = some 181 →
        is_short_form (iso8601_to_seconds parse_duration s) = false)
    ∧ (parse_duration s = none →
        iso8601_to_seconds parse_duration s = 0
        ∧ is_short_form (iso8601_to_seconds parse_duration s) = true) := by
  refine ⟨by simp [is_short_form], ?_, ?_, ?_⟩
  · intro h
    simp [is_short_form, iso8601_to_seconds, h]
  · intro h
    simp [is_short_form, iso8601_to_seconds, h]
  · intro h
    simp [is_short_form, iso8601_to_seconds, h]

/-- A concrete duration oracle for the C7 witness: "ok" parses to exactly
180 seconds, "long" to 181, "bad" fails to parse. -/
def parse_durationW (s : String) : Option Int :=
  if s = "ok" then some 180 else if s = "long" then some 181 else none

/-- Witness for C7: 180 seconds accepted, 181 rejected, parse failure
treated as 0 seconds and accepted. -/
theorem short_form_threshold_witness :
    is_short_form (iso8601_to_seconds parse_durationW "ok") = true
    ∧ is_short_form (iso8601_to_seconds parse_durationW "long") = false
    ∧ iso8601_to_seconds parse_durationW "bad" = 0
    ∧ is_short_form (iso8601_to_seconds parse_durationW "bad") = true :=
  ⟨(short_form_threshold parse_durationW "ok").2.1 rfl,
   (short_form_threshold parse_durationW "long").2.2.1 rfl,
   ((short_form_threshold parse_durationW "bad").2.2.2 rfl).1,
   ((short_form_threshold parse_durationW "bad").2.2.2 rfl).2⟩

/-! ### The metric row: supporting lemmas -/

/-- Unfolding `build_row` when both lookups succeed. -/
theorem build_row_eq (wallFmt : Int → String) (now2 : String → Int)
    (t : Tracked) (stats : List (String × YTStats)) (ts : String)
    (vid : String) (s : YTStats) (pub : Int)
    (hs : stats.lookup vid = some s)
    (hp : t.video_to_published_past.lookup vid = some pub) :
    build_row wallFmt now2 t stats ts vid = some
      [vid, (t.video_to_channel_past.lookup vid).getD "N/A",
       wallFmt (pub + IST_OFFSET), ts,
       toString s.viewCount, toString s.likeCount, toString s.commentCount,
       fmtFixed 2 ((s.viewCount : ℚ) /
         max (((now2 vid - pub : Int) : ℚ) / 3600) (1/3600)),
       fmtFixed 4 (if 0 < s.viewCount then
         ((s.likeCount + s.commentCount : Int) : ℚ) / (s.viewCount : ℚ)
         else 0)] := by
  simp only [build_row, hs, hp]

/-- A built row always records its video id in cell 0 and the shared
observation timestamp string in cell 3, and has the full 9 cells. -/
theorem build_row_shape (wallFmt : Int → String) (now2 : String → Int)
    (t : Tracked) (stats : List (String × YTStats)) (ts : String)
    (vid : String) (row : Row)
    (hrow : build_row wallFmt now2 t stats ts vid = some row) :
    row.getD 0 "" = vid ∧ row.getD 3 "" = ts ∧ row.length = 9
    ∧ ∃ s pub, stats.lookup vid = some s
        ∧ t.video_to_published_past.lookup vid = some pub := by
  unfold build_row at hrow
  cases hs : stats.lookup vid with
  | none => rw [hs] at hrow; exact absurd hrow (by simp)
  | some s =>
    rw [hs] at hrow
    cases hp : t.video_to_published_past.lookup vid with
    | none => rw [hp] at hrow; exact absurd hrow (by simp)
    | some pub =>
      rw [hp] at hrow
      simp only [Option.some.injEq] at hrow
      subst hrow
      exact ⟨rfl, rfl, rfl, s, pub, rfl, rfl⟩

/-- A row is skipped (no MetricSample built) exactly when the id has no
fetched stats or no known publish instant. -/
theorem build_row_skip_iff (wallFmt : Int → String) (now2 : String → Int)
    (t : Tracked) (stats : List (String × YTStats)) (ts : String)
    (vid : String) :
    build_row wallFmt now2 t stats ts vid = none ↔
      stats.lookup vid = none
      ∨ t.video_to_published_past.lookup vid = none := by
  unfold build_row
  cases hs : stats.lookup vid with
  | none => simp
  | some s =>
    cases hp : t.video_to_published_past.lookup vid with
    | none => simp
    | some pub => simp

/-! ### Claim C9: engagement rate -/

/-- C9: the engagement-rate cell of every built row is the 4-decimal
rendering of `(likeCount + commentCount) / viewCount` when
`viewCount > 0` and of 0 when `viewCount = 0` (regardless of likes and
comments); in particular `viewCount = 0` persists "0.0000" and
`viewCount = 200, likeCount = 10, commentCount = 5` persists "0.0750". -/
theorem engagement_rate_cell (wallFmt : Int → String) (now2 : String → Int)
    (t : Tracked) (stats : List (String × YTStats)) (ts : String)
    (vid : String) (s : YTStats) (pub : Int) (row : Row)
    (hs : stats.lookup vid = some s)
    (hp : t.video_to_published_past.lookup vid = some pub)
    (hrow : build_row wallFmt now2 t stats ts vid = some row) :
    row.getD 8 "" = fmtFixed 4 (if 0 < s.viewCount then
        ((s.likeCount + s.commentCount : Int) : ℚ) / (s.viewCount : ℚ) else 0)
    ∧ (s.viewCount = 0 → row.getD 8 "" = "0.0000")
    ∧ (s.viewCount = 200 → s.likeCount = 10 → s.commentCount = 5 →
        row.getD 8 "" = "0.0750") := by
  rw [build_row_eq wallFmt now2 t stats ts vid s pub hs hp] at hrow
  simp only [Option.some.injEq] at hrow
  subst hrow
  refine ⟨rfl, ?_, ?_⟩
  · intro hv
    have h0 : (if 0 < s.viewCount then
        ((s.likeCount + s.commentCount : Int) : ℚ) / (s.viewCount : ℚ)
        else 0) = 0 := by simp [hv]
    show fmtFixed 4 (if 0 < s.viewCount then
        ((s.likeCount + s.commentCount : Int) : ℚ) / (s.viewCount : ℚ)
        else 0) = "0.0000"
    rw [h0]
    decide
  · intro hv hl hc
    show fmtFixed 4 (if 0 < s.viewCount then
        ((s.likeCount + s.commentCount : Int) : ℚ) / (s.viewCount : ℚ)
        else 0) = "0.0750"
    rw [hv, hl, hc]
    decide

/-- Concrete inputs for the C9 witness. -/
def statsW9 : List (String × YTStats) := [("v", ⟨200, 10, 5⟩)]

/-- Concrete tracking state for the C9 witness: "v" published at instant 0
with channel "ch". -/
def trackedW9 : Tracked := ⟨["v"], [("v", "ch")], [("v", 0)]⟩

/-- The row the C9 witness scenario builds (elapsed exactly one hour). -/
def rowW9 : Row :=
  ["v", "ch", "PT", "TS", "200", "10", "5", "200.00", "0.0750"]

/-- Witness for C9: the concrete scenario builds `rowW9`, whose
engagement-rate cell is "0.0750". -/
theorem engagement_rate_cell_witness :
    build_row (fun _ => "PT") (fun _ => 3600) trackedW9 statsW9 "TS" "v"
      = some rowW9
    ∧ rowW9.getD 8 "" = "0.0750" :=
  ⟨by decide,
   (engagement_rate_cell (fun _ => "PT") (fun _ => 3600) trackedW9 statsW9
      "TS" "v" ⟨200, 10, 5⟩ 0 rowW9 rfl rfl (by decide)).2.2 rfl rfl rfl⟩

/-! ### Claim C8: views-per-hour -/

/-- Environment refuting the claim that VPH uses the shared
observation instant: the run-level clock read (line 410) returns 0, but by
the time the row is built the per-row clock read (line 435) returns 3600.
The single tracked video "v8" was published at instant -7200. -/
def envC8 : RunEnv where
  wsOk := true
  readFail := false
  initFail := none
  found := []
  no_shorts_flag := true
  statResp := fun _ => some [⟨"v8", some ⟨some 1000, some 0, some 0⟩⟩]
  appendFail := false
  now := 0
  now2 := fun _ => 3600
  wallFmt := fun w => if w = 19800 then "NOWSTR" else "PUBSTR"
  wallParse := fun s => if s = "P" then some (-7200 + 19800) else none

/-- The sheet for the C8 counterexample: well-formed header plus one
previously persisted row for "v8". -/
def sheetC8 : List Row := [SHEET_HEADER, ["v8", "ch", "P", "old"]]

/-- Counterexample to C8 as stated: at `envC8` the persisted VPH cell is
"333.33" (computed from the fresh per-row clock read, elapsed 3 hours),
while `viewCount / max((observationInstant - publishInstant)/3600, 1/3600)`
with the shared observation instant of the run (`envC8.now = 0`, elapsed
2 hours) renders as "500.00": the code does not divide by the elapsed time
to the shared observation instant. -/
theorem vph_shared_instant_refuted :
    (run_once_and_append envC8 sheetC8).appendedRows
      = [["v8", "ch", "PUBSTR", "NOWSTR", "1000", "0", "0", "333.33",
          "0.0000"]]
    ∧ (stats_for envC8 sheetC8.tail).lookup "v8" = some ⟨1000, 0, 0⟩
    ∧ (tracked_after_union envC8
        sheetC8.tail).video_to_published_past.lookup "v8" = some (-7200)
    ∧ ts_of envC8 = "NOWSTR"
    ∧ fmtFixed 2 ((1000 : ℚ) /
        max (((envC8.now - (-7200) : Int) : ℚ) / 3600) (1/3600)) = "500.00"
    ∧ ("333.33" : String) ≠ "500.00" := by
  refine ⟨by decide, by decide, by decide, by decide, by decide, by decide⟩

/-- C8 amended: every built row's VPH cell is
`viewCount / max((rowBuildInstant - publishInstant) in hours, 1/3600)`
where `rowBuildInstant` is the fresh clock sample taken while building
that row (line 435), which may differ from the run's shared observation
instant; the shared observation-timestamp string is only persisted in
cell 3.  With viewCount = 1000 and a row-build elapsed time of exactly 2
hours the cell is "500.00"; with the publish instant equal to the
row-build instant the elapsed hours floor to 1/3600, so the cell renders
`viewCount × 3600`. -/
theorem vph_cell (wallFmt : Int → String) (now2 : String → Int)
    (t : Tracked) (stats : List (String × YTStats)) (ts : String)
    (vid : String) (s : YTStats) (pub : Int) (row : Row)
    (hs : stats.lookup vid = some s)
    (hp : t.video_to_published_past.lookup vid = some pub)
    (hrow : build_row wallFmt now2 t stats ts vid = some row) :
    row.getD 7 "" = fmtFixed 2 ((s.viewCount : ℚ) /
        max (((now2 vid - pub : Int) : ℚ) / 3600) (1/3600))
    ∧ row.getD 3 "" = ts
    ∧ (s.viewCount = 1000 → now2 vid - pub = 7200 → row.getD 7 "" = "500.00")
    ∧ (now2 vid = pub →
        row.getD 7 "" = fmtFixed 2 ((s.viewCount : ℚ) * 3600)) := by
  rw [build_row_eq wallFmt now2 t stats ts vid s pub hs hp] at hrow
  simp only [Option.some.injEq] at hrow
  subst hrow
  refine ⟨rfl, rfl, ?_, ?_⟩
  · intro hv he
    show fmtFixed 2 ((s.viewCount : ℚ) /
        max (((now2 vid - pub : Int) : ℚ) / 3600) (1/3600)) = "500.00"
    rw [hv, he]
    decide
  · intro he
    show fmtFixed 2 ((s.viewCount : ℚ) /
        max (((now2 vid - pub : Int) : ℚ) / 3600) (1/3600))
      = fmtFixed 2 ((s.viewCount : ℚ) * 3600)
    rw [he]
    congr 1
    rw [sub_self]
    norm_num
    rw [div_eq_mul_inv, one_div, inv_inv]

/-- Concrete inputs for the C8 witness: 1000 views, published at instant
0, row-build clock read at 7200 (elapsed exactly 2 hours). -/
def statsW8 : List (String × YTStats) := [("w", ⟨1000, 2, 3⟩)]

/-- Concrete tracking state for the C8 witness. -/
def trackedW8 : Tracked := ⟨["w"], [("w", "chw")], [("w", 0)]⟩

/-- The row the C8 witness scenario builds. -/
def rowW8 : Row :=
  ["w", "chw", "F", "TS8", "1000", "2", "3", "500.00", "0.0050"]

/-- Witness for C8 (amended): elapsed exactly 2 hours at the row-build
instant yields the VPH cell "500.00". -/
theorem vph_cell_witness :
    build_row (fun _ => "F") (fun _ => 7200) trackedW8 statsW8 "TS8" "w"
      = some rowW8
    ∧ rowW8.getD 7 "" = "500.00" :=
  ⟨by decide,
   (vph_cell (fun _ => "F") (fun _ => 7200) trackedW8 statsW8 "TS8" "w"
      ⟨1000, 2, 3⟩ 0 rowW8 rfl rfl (by decide)).2.2.1 rfl rfl⟩

/-! ### Claim C10: missing counter fields default to 0 -/

/-- A batch fetched in one piece: a nonempty id list of at most 50 ids is
sent as a single request. -/
theorem chunks50_single {α : Type} (l : List α) (hne : l ≠ [])
    (hle : l.length ≤ 50) : chunks50 l = [l] := by
  cases l with
  | nil => exact absurd rfl hne
  | cons x xs =>
    unfold chunks50 chunks50Go
    simp only [List.length_cons]
    rw [List.take_of_length_le (by simpa using hle),
        List.drop_eq_nil_of_le (by simpa using hle)]
    cases xs <;> rfl

/-- A single-batch statistics fetch is the fold of the defaulted
per-item entries. -/
theorem fetch_statistics_single (resp : List String → Option (List StatItem))
    (ids : List String) (items : List StatItem) (hne : ids ≠ [])
    (hle : ids.length ≤ 50) (hresp : resp ids = some items) :
    fetch_statistics resp ids
      = items.foldl (fun d item => dset d item.id (stat_entry item)) [] := by
  unfold fetch_statistics
  rw [chunks50_single ids hne hle]
  simp only [List.foldl_cons, List.foldl_nil, hresp]

/-- An id whose recorded view count is 0 (as a missing field defaults to)
still gets a row, with view-count cell "0", VPH cell "0.00" and engagement
cell "0.0000". -/
theorem build_row_zero_views (wallFmt : Int → String) (now2 : String → Int)
    (t : Tracked) (stats : List (String × YTStats)) (ts vid : String)
    (pub : Int) (s : YTStats) (hv : s.viewCount = 0)
    (hs : stats.lookup vid = some s)
    (hp : t.video_to_published_past.lookup vid = some pub) :
    build_row wallFmt now2 t stats ts vid ≠ none
    ∧ ∀ row, build_row wallFmt now2 t stats ts vid = some row →
        row.getD 4 "" = "0" ∧ row.getD 7 "" = "0.00"
        ∧ row.getD 8 "" = "0.0000" := by
  have heq := build_row_eq wallFmt now2 t stats ts vid s pub hs hp
  constructor
  · rw [heq]
    simp
  · intro row hrow
    rw [heq] at hrow
    simp only [Option.some.injEq] at hrow
    subst hrow
    refine ⟨?_, ?_, ?_⟩
    · show toString s.viewCount = "0"
      rw [hv]
      decide
    · show fmtFixed 2 ((s.viewCount : ℚ) /
        max (((now2 vid - pub : Int) : ℚ) / 3600) (1/3600)) = "0.00"
      rw [hv, Int.cast_zero, zero_div]
      decide
    · have h0 : (if 0 < s.viewCount then
          ((s.likeCount + s.commentCount : Int) : ℚ) / (s.viewCount : ℚ)
          else 0) = 0 := by simp [hv]
      show fmtFixed 4 (if 0 < s.viewCount then
          ((s.likeCount + s.commentCount : Int) : ℚ) / (s.viewCount : ℚ)
          else 0) = "0.0000"
      rw [h0]
      decide

/-- C10: every item of a counter batch response is recorded with each
missing `viewCount`/`likeCount`/`commentCount` field (or the whole missing
`statistics` object) silently defaulted to 0; for a single-batch fetch the
resulting dict is exactly the fold of those defaulted entries; and an id
whose recorded counters include a defaulted view count of 0 still receives
a MetricSample — with view-count cell "0", VPH cell "0.00" and engagement
cell "0.0000" — rather than being skipped, provided its publish instant is
known. -/
theorem stats_default_zero :
    (∀ vid : String, stat_entry ⟨vid, none⟩ = ⟨0, 0, 0⟩)
    ∧ (∀ (vid : String) (f : StatFields), stat_entry ⟨vid, some f⟩
        = ⟨f.viewCount.getD 0, f.likeCount.getD 0, f.commentCount.getD 0⟩)
    ∧ (∀ (resp : List String → Option (List StatItem)) (ids : List String)
        (items : List StatItem), ids ≠ [] → ids.length ≤ 50 →
        resp ids = some items →
        fetch_statistics resp ids
          = items.foldl (fun d item => dset d item.id (stat_entry item)) [])
    ∧ (∀ (wallFmt : Int → String) (now2 : String → Int) (t : Tracked)
        (stats : List (String × YTStats)) (ts vid : String) (pub : Int)
        (s : YTStats), s.viewCount = 0 →
        stats.lookup vid = some s →
        t.video_to_published_past.lookup vid = some pub →
        build_row wallFmt now2 t stats ts vid ≠ none
        ∧ ∀ row, build_row wallFmt now2 t stats ts vid = some row →
            row.getD 4 "" = "0" ∧ row.getD 7 "" = "0.00"
            ∧ row.getD 8 "" = "0.0000") :=
  ⟨fun _ => rfl, fun _ _ => rfl, fetch_statistics_single,
   fun wallFmt now2 t stats ts vid pub s hv hs hp =>
     build_row_zero_views wallFmt now2 t stats ts vid pub s hv hs hp⟩

/-- A concrete single-batch counter response for the C10 witness: the
`statistics` of "x" lacks `viewCount` and `commentCount`. -/
def respW10 (ids : List String) : Option (List StatItem) :=
  if ids = ["x"] then some [⟨"x", some ⟨none, some 4, none⟩⟩] else none

/-- The row the C10 witness scenario builds for "x". -/
def rowW10 : Row :=
  ["x", "N/A", "G", "TS0", "0", "4", "0", "0.00", "0.0000"]

/-- Witness for C10: the missing fields of "x" default to 0, and "x"
still gets a metric row, with VPH "0.00" and engagement "0.0000". -/
theorem stats_default_zero_witness :
    fetch_statistics respW10 ["x"] = [("x", ⟨0, 4, 0⟩)]
    ∧ build_row (fun _ => "G") (fun _ => 5) ⟨["x"], [], [("x", 2)]⟩
        [("x", ⟨0, 4, 0⟩)] "TS0" "x" = some rowW10
    ∧ rowW10.getD 7 "" = "0.00" ∧ rowW10.getD 8 "" = "0.0000" :=
  ⟨by
    rw [stats_default_zero.2.2.1 respW10 ["x"]
      [⟨"x", some ⟨none, some 4, none⟩⟩] (by decide) (by decide) rfl]
    decide,
   by decide,
   ((stats_default_zero.2.2.2 (fun _ => "G") (fun _ => 5)
      ⟨["x"], [], [("x", 2)]⟩ [("x", ⟨0, 4, 0⟩)] "TS0" "x" 2 ⟨0, 4, 0⟩
      rfl rfl rfl).2 rowW10 (by decide)).2.1,
   ((stats_default_zero.2.2.2 (fun _ => "G") (fun _ => 5)
      ⟨["x"], [], [("x", 2)]⟩ [("x", ⟨0, 4, 0⟩)] "TS0" "x" 2 ⟨0, 4, 0⟩
      rfl rfl rfl).2 rowW10 (by decide)).2.2⟩

/-! ### Claim C4: discovery fail-fast -/

/-- How processing one channel ends: an uncaught exception, the
abort-discovery failure signal, or normal completion. -/
inductive ChStatus where
  | crash
  | failed
  | ok
deriving DecidableEq

/-- The status encoded in the nested option of the page/channel loops. -/
def status_of {α : Type} : Option (Option α) → ChStatus
  | none => .crash
  | some none => .failed
  | some (some _) => .ok

/-- The status of one channel, independent of the accumulator it is
processed with (see `process_channel_status_indep`). -/
def channel_status (env : YTEnv) (cid : String) : ChStatus :=
  status_of (process_channel env ⟨[], [], []⟩ cid)

/-- Whether the item loop crashes does not depend on the accumulator. -/
theorem process_items_none_iff (env : YTEnv) (title : String) :
    ∀ (items : List PlaylistEntry) (acc acc' : DiscAccum),
      (process_items env title acc items = none ↔
        process_items env title acc' items = none) := by
  intro items
  induction items with
  | nil =>
    intro acc acc'
    simp [process_items]
  | cons item rest ih =>
    intro acc acc'
    simp only [process_items]
    by_cases hw : is_within_today env.fromiso env.now item.publishedAt = true
    · rw [if_pos hw, if_pos hw]
      cases hv : env.vidResp item.videoId with
      | none => exact ih acc acc'
      | some l =>
        cases l with
        | nil => exact ih acc acc'
        | cons v vs =>
          dsimp only
          by_cases hsf :
              is_short_form (iso8601_to_seconds env.parse_duration v.duration)
                = true
          · rw [if_pos hsf, if_pos hsf]
            cases hp : env.fromiso v.publishedAt with
            | none => simp
            | some pd => exact ih _ _
          · rw [if_neg hsf, if_neg hsf]
            exact ih acc acc'
    · rw [if_neg hw, if_neg hw]
      exact ih acc acc'

/-- The outcome kind of the page loop does not depend on the
accumulator. -/
theorem process_pages_status_indep (env : YTEnv) (title : String) :
    ∀ (ps : List (Option (List PlaylistEntry))) (acc acc' : DiscAccum),
      status_of (process_pages env title acc ps)
        = status_of (process_pages env title acc' ps) := by
  intro ps
  induction ps with
  | nil => intro acc acc'; rfl
  | cons p rest ih =>
    intro acc acc'
    cases p with
    | none => rfl
    | some items =>
      simp only [process_pages]
      cases hi : process_items env title acc items with
      | none =>
        rw [(process_items_none_iff env title items acc acc').mp hi]
      | some a2 =>
        cases hi' : process_items env title acc' items with
        | none =>
          exact absurd ((process_items_none_iff env title items acc' acc).mp
            hi') (by simp [hi])
        | some a3 => exact ih a2 a3

/-- The outcome kind of one channel does not depend on the accumulator. -/
theorem process_channel_status_indep (env : YTEnv) (cid : String)
    (acc : DiscAccum) :
    status_of (process_channel env acc cid) = channel_status env cid := by
  unfold channel_status process_channel
  cases env.chanResp cid with
  | none => rfl
  | some l =>
    cases l with
    | nil => rfl
    | cons ci tl =>
      exact process_pages_status_indep env ci.title (env.pages ci.uploads)
        acc ⟨[], [], []⟩

/-- If every channel before `cid` completes normally and `cid` fails (its
metadata fetch or one of its page fetches), the channel loop returns the
abort-discovery signal. -/
theorem process_channels_first_failure (env : YTEnv) :
    ∀ (pre : List String) (cid : String) (post : List String)
      (acc : DiscAccum),
      (∀ c ∈ pre, channel_status env c = .ok) →
      channel_status env cid = .failed →
      process_channels env acc (pre ++ cid :: post) = some none := by
  intro pre
  induction pre with
  | nil =>
    intro cid post acc _ hf
    simp only [List.nil_append, process_channels]
    have hst := process_channel_status_indep env cid acc
    rw [hf] at hst
    cases hc : process_channel env acc cid with
    | none => rw [hc] at hst; exact absurd hst (by simp [status_of])
    | some o =>
      cases o with
      | none => rfl
      | some a => rw [hc] at hst; exact absurd hst (by simp [status_of])
  | cons c pre' ih =>
    intro cid post acc hok hf
    simp only [List.cons_append, process_channels]
    have hst := process_channel_status_indep env c acc
    rw [hok c (by simp)] at hst
    cases hc : process_channel env acc c with
    | none => rw [hc] at hst; exact absurd hst (by simp [status_of])
    | some o =>
      cases o with
      | none => rfl
      | some a' =>
        exact ih cid post a' (fun x hx => hok x (by simp [hx])) hf

/-- A failing channel-metadata fetch (`None` response or empty `items`)
gives the failure status. -/
theorem channel_status_failed_of_chanResp (env : YTEnv) (cid : String)
    (h : env.chanResp cid = none ∨ env.chanResp cid = some []) :
    channel_status env cid = .failed := by
  unfold channel_status process_channel
  rcases h with h | h <;> rw [h] <;> rfl

/-- A failing page fetch, with every earlier page of that channel present
and crash-free, gives the failure status. -/
theorem process_pages_fail (env : YTEnv) (title : String)
    (ppost : List (Option (List PlaylistEntry))) :
    ∀ (ppre : List (Option (List PlaylistEntry))) (acc : DiscAccum),
      (∀ p ∈ ppre, ∃ its, p = some its ∧
        process_items env title ⟨[], [], []⟩ its ≠ none) →
      process_pages env title acc (ppre ++ none :: ppost) = some none := by
  intro ppre
  induction ppre with
  | nil => intro acc _; rfl
  | cons p rest ih =>
    intro acc hclean
    obtain ⟨its, rfl, hnc⟩ := hclean p (by simp)
    simp only [List.cons_append, process_pages]
    cases hi : process_items env title acc its with
    | none =>
      exact absurd ((process_items_none_iff env title its acc ⟨[], [], []⟩).mp
        hi) hnc
    | some a' => exact ih a' (fun x hx => hclean x (by simp [hx]))

/-- A failing page fetch after clean earlier pages fails the channel. -/
theorem channel_status_failed_of_page (env : YTEnv) (cid : String)
    (ci : ChanInfo) (tl : List ChanInfo)
    (ppre ppost : List (Option (List PlaylistEntry)))
    (hch : env.chanResp cid = some (ci :: tl))
    (hpages : env.pages ci.uploads = ppre ++ none :: ppost)
    (hclean : ∀ p ∈ ppre, ∃ its, p = some its ∧
        process_items env ci.title ⟨[], [], []⟩ its ≠ none) :
    channel_status env cid = .failed := by
  unfold channel_status process_channel
  rw [hch]
  dsimp only
  rw [hpages, process_pages_fail env ci.title ppost ppre ⟨[], [], []⟩ hclean]
  rfl

/-- `dset` never produces an empty dict. -/
theorem dset_ne_nil {α : Type} (l : List (String × α)) (k : String) (v : α) :
    dset l k v ≠ [] := by
  cases l with
  | nil => simp [dset]
  | cons h t =>
    simp only [dset]
    split <;> simp

/-- Invariant of the discovery accumulator: the recorded id list and the
two dicts are empty together and nonempty together. -/
def accInv (acc : DiscAccum) : Prop :=
  (acc.all_short_ids = [] ∧ acc.video_to_channel = []
    ∧ acc.video_to_published = [])
  ∨ (acc.all_short_ids ≠ [] ∧ acc.video_to_channel ≠ []
    ∧ acc.video_to_published ≠ [])

/-- The item loop preserves `accInv`. -/
theorem process_items_inv (env : YTEnv) (title : String) :
    ∀ (items : List PlaylistEntry) (acc acc' : DiscAccum),
      process_items env title acc items = some acc' → accInv acc →
      accInv acc' := by
  intro items
  induction items with
  | nil =>
    intro acc acc' h hinv
    simp only [process_items, Option.some.injEq] at h
    exact h ▸ hinv
  | cons item rest ih =>
    intro acc acc' h hinv
    simp only [process_items] at h
    by_cases hw : is_within_today env.fromiso env.now item.publishedAt = true
    · rw [if_pos hw] at h
      cases hv : env.vidResp item.videoId with
      | none => rw [hv] at h; exact ih acc acc' h hinv
      | some l =>
        rw [hv] at h
        cases l with
        | nil => exact ih acc acc' h hinv
        | cons v vs =>
          dsimp only at h
          by_cases hsf :
              is_short_form (iso8601_to_seconds env.parse_duration v.duration)
                = true
          · rw [if_pos hsf] at h
            cases hp : env.fromiso v.publishedAt with
            | none => rw [hp] at h; exact absurd h (by simp)
            | some pd =>
              rw [hp] at h
              refine ih _ acc' h (Or.inr ⟨by simp, dset_ne_nil _ _ _,
                dset_ne_nil _ _ _⟩)
          · rw [if_neg hsf] at h
            exact ih acc acc' h hinv
    · rw [if_neg hw] at h
      exact ih acc acc' h hinv

/-- The page loop preserves `accInv`. -/
theorem process_pages_inv (env : YTEnv) (title : String) :
    ∀ (ps : List (Option (List PlaylistEntry))) (acc acc' : DiscAccum),
      process_pages env title acc ps = some (some acc') → accInv acc →
      accInv acc' := by
  intro ps
  induction ps with
  | nil =>
    intro acc acc' h hinv
    simp only [process_pages, Option.some.injEq] at h
    exact h ▸ hinv
  | cons p rest ih =>
    intro acc acc' h hinv
    cases p with
    | none => exact absurd h (by simp [process_pages])
    | some items =>
      simp only [process_pages] at h
      cases hi : process_items env title acc items with
      | none => rw [hi] at h; exact absurd h (by simp)
      | some a2 =>
        rw [hi] at h
        exact ih a2 acc' h (process_items_inv env title items acc a2 hi hinv)

/-- The channel loop preserves `accInv`. -/
theorem process_channels_inv (env : YTEnv) :
    ∀ (cids : List String) (acc acc' : DiscAccum),
      process_channels env acc cids = some (some acc') → accInv acc →
      accInv acc' := by
  intro cids
  induction cids with
  | nil =>
    intro acc acc' h hinv
    simp only [process_channels, Option.some.injEq] at h
    exact h ▸ hinv
  | cons cid rest ih =>
    intro acc acc' h hinv
    simp only [process_channels] at h
    cases hc : process_channel env acc cid with
    | none => rw [hc] at h; exact absurd h (by simp)
    | some o =>
      rw [hc] at h
      cases o with
      | none => exact absurd h (by simp)
      | some a2 =>
        refine ih a2 acc' h ?_
        unfold process_channel at hc
        cases hr : env.chanResp cid with
        | none => rw [hr] at hc; exact absurd hc (by simp)
        | some l =>
          rw [hr] at hc
          cases l with
          | nil => exact absurd hc (by simp)
          | cons ci tl =>
            exact process_pages_inv env ci.title (env.pages ci.uploads) acc
              a2 hc hinv

/-- C4: for the configured ordered channel sequence, if the channel whose
processing ends first in failure — a `None`/empty channel-metadata
response after retry, or a `None` page response after retry (with the
earlier pages of that channel clean) — is reached after only cleanly
completed channels, the whole discovery returns empty item and
publish-time mappings with `no_shorts_flag = true`; and a completed
discovery flags `no_shorts_flag = true` exactly when its returned
mappings are empty, i.e. also when every channel succeeded but zero
short-form items published today were found. -/
theorem discover_fail_fast (env : YTEnv) :
    (∀ pre cid post, CHANNEL_IDS = pre ++ cid :: post →
      (∀ c ∈ pre, channel_status env c = .ok) →
      channel_status env cid = .failed →
      discover_shorts env = some ⟨[], [], true⟩)
    ∧ (∀ cid, env.chanResp cid = none ∨ env.chanResp cid = some [] →
        channel_status env cid = .failed)
    ∧ (∀ cid ci tl ppre ppost, env.chanResp cid = some (ci :: tl) →
        env.pages ci.uploads = ppre ++ none :: ppost →
        (∀ p ∈ ppre, ∃ its, p = some its ∧
          process_items env ci.title ⟨[], [], []⟩ its ≠ none) →
        channel_status env cid = .failed)
    ∧ (∀ r, discover_shorts env = some r →
        (r.no_shorts_flag = true ↔
          r.video_to_channel = [] ∧ r.video_to_published = [])) := by
  refine ⟨?_, ?_, ?_, ?_⟩
  · intro pre cid post hids hok hf
    unfold discover_shorts
    rw [hids, process_channels_first_failure env pre cid post ⟨[], [], []⟩
      hok hf]
  · exact channel_status_failed_of_chanResp env
  · intro cid ci tl ppre ppost hch hpages hclean
    exact channel_status_failed_of_page env cid ci tl ppre ppost hch hpages
      hclean
  · intro r h
    unfold discover_shorts at h
    cases hpc : process_channels env ⟨[], [], []⟩ CHANNEL_IDS with
    | none => rw [hpc] at h; exact absurd h (by simp)
    | some o =>
      rw [hpc] at h
      cases o with
      | none =>
        simp only [Option.some.injEq] at h
        subst h
        simp
      | some acc =>
        have hinv := process_channels_inv env CHANNEL_IDS ⟨[], [], []⟩ acc
          hpc (Or.inl ⟨rfl, rfl, rfl⟩)
        dsimp only at h
        by_cases hids : acc.all_short_ids = []
        · rw [if_pos hids] at h
          simp only [Option.some.injEq] at h
          subst h
          simp
        · rw [if_neg hids] at h
          simp only [Option.some.injEq] at h
          subst h
          rcases hinv with ⟨h1, _, _⟩ | ⟨_, h2, h3⟩
          · exact absurd h1 hids
          · simp [h2, h3]

/-- The C4 witness environment: the very first channel-metadata fetch
fails after retry. -/
def envC4 : YTEnv where
  chanResp := fun _ => none
  pages := fun _ => []
  vidResp := fun _ => none
  parse_duration := fun _ => none
  fromiso := fun _ => none
  now := 0

/-- Witness for C4: with the first channel's metadata fetch failing,
discovery returns empty mappings with the failure flag set. -/
theorem discover_fail_fast_witness :
    channel_status envC4 "UC415bOPUcGSamy543abLmRA" = .failed
    ∧ discover_shorts envC4 = some ⟨[], [], true⟩ :=
  ⟨(discover_fail_fast envC4).2.1 "UC415bOPUcGSamy543abLmRA" (Or.inl rfl),
   (discover_fail_fast envC4).1 [] "UC415bOPUcGSamy543abLmRA"
     ["UCRzYN32xtBf3Yxsx5BvJWJw",
      "UCVOTBwF0vnSxMRIbfSE_K_g",
      "UCPk2s5c4R_d-EUUNvFFODoA",
      "UCwAdQUuPT6laN-AQR17fe1g",
      "UCA295QVkf9O1RQ8_-s3FVXg",
      "UCkw1tYo7k8t-Y99bOXuZwhg",
      "UCxgAuX3XZROujMmGphN_scA",
      "UCUUlw3anBIkbW9W44Y-eURw"] rfl
     (fun c hc => absurd hc (List.not_mem_nil c))
     ((discover_fail_fast envC4).2.1 "UC415bOPUcGSamy543abLmRA"
       (Or.inl rfl))⟩

/-! ### Run-level store lemmas -/

/-- `run_core` only ever extends the store with the rows it appends. -/
theorem run_core_sheet (env : RunEnv) (store rows : List Row) :
    (run_core env store rows).sheet
      = store ++ (run_core env store rows).appendedRows := by
  simp only [run_core]
  split_ifs <;> simp

/-- On a sheet with a well-formed header and a working store connection,
the run is exactly `run_core` on the sheet and its data rows. -/
theorem run_once_eq_core (env : RunEnv) (sheet : List Row)
    (hwf : header_ok sheet) (hws : env.wsOk = true)
    (hrd : env.readFail = false) :
    run_once_and_append env sheet = run_core env sheet sheet.tail := by
  have hh : ¬(sheet.headD [] = [] ∨ (sheet.headD []).length < 9) := by
    rcases hwf with ⟨h1, h2⟩
    push_neg
    exact ⟨h1, by omega⟩
  simp only [run_once_and_append, hws, hrd]
  rw [if_neg (by simp), if_neg (by simp), if_neg hh]

/-- With a well-formed header the final sheet is always the initial sheet
followed by the batch-appended rows: nothing else is written, nothing is
deleted or overwritten. -/
theorem run_once_sheet (env : RunEnv) (sheet : List Row)
    (hwf : header_ok sheet) :
    (run_once_and_append env sheet).sheet
      = sheet ++ (run_once_and_append env sheet).appendedRows := by
  by_cases hws : env.wsOk = true
  · by_cases hrd : env.readFail = true
    · simp only [run_once_and_append, hws, hrd]
      simp
    · have hrd' : env.readFail = false := by
        revert hrd; cases env.readFail <;> simp
      rw [run_once_eq_core env sheet hwf hws hrd']
      exact run_core_sheet env sheet sheet.tail
  · have hws' : env.wsOk = false := by
      revert hws; cases env.wsOk <;> simp
    simp only [run_once_and_append, hws']
    simp

/-- A well-formed header stays in place across a run. -/
theorem run_once_header_ok (env : RunEnv) (sheet : List Row)
    (hwf : header_ok sheet) :
    header_ok (run_once_and_append env sheet).sheet := by
  rw [run_once_sheet env sheet hwf]
  rcases hwf with ⟨h1, h2⟩
  cases sheet with
  | nil => exact absurd (rfl : ([] : List Row).headD [] = []) h1
  | cons h t =>
    refine ⟨by simpa using h1, by simpa using h2⟩

/-- With `appendFail` set, `run_core` mutates nothing. -/
theorem run_core_appendFail (env : RunEnv) (store rows : List Row)
    (hap : env.appendFail = true) :
    (run_core env store rows).appendedRows = []
    ∧ (run_core env store rows).sheet = store := by
  simp only [run_core]
  split_ifs with h1 h2 h3 h4 <;> simp_all

/-! ### Claim C3: store effects of a run -/

/-- An environment whose external calls all fail or return nothing; the
store itself works. -/
def envC3 : RunEnv where
  wsOk := true
  readFail := false
  initFail := none
  found := []
  no_shorts_flag := true
  statResp := fun _ => none
  appendFail := false
  now := 0
  now2 := fun _ => 0
  wallFmt := fun _ => ""
  wallParse := fun _ => none

/-- Counterexample to C3 as stated: the lazy schema initialization of
step 1a is a second mutating call outside the step-8 batch append.  On a
store whose header is malformed, a run with zero batch-appended rows
deletes the previously appended row `["gone", ...]` (the
initialization CLEARS the sheet); on an empty store it writes the header
row, again without any batch append. -/
theorem only_append_mutates_refuted :
    (run_once_and_append envC3 [["hdr"], ["gone", "a", "b", "c"]]).appendedRows
      = []
    ∧ ["gone", "a", "b", "c"]
        ∉ (run_once_and_append envC3 [["hdr"], ["gone", "a", "b", "c"]]).sheet
    ∧ (run_once_and_append envC3 []).appendedRows = []
    ∧ (run_once_and_append envC3 []).sheet ≠ [] := by
  refine ⟨by decide, by decide, by decide, by decide⟩

/-- C3 amended: on a store whose header row is well-formed (9 columns —
the only stores the program itself produces), any worksheet-connection or
read failure aborts the run with the store untouched, a failing batch
append leaves the store untouched, and the final store is always the
initial store followed by the rows of the single step-8 batch append — no
other mutation, deletion or overwrite of persisted rows occurs.  (When the
header is absent or malformed, the lazy schema initialization additionally
clears the sheet and writes the fixed header before the run proceeds.) -/
theorem only_append_mutates (env : RunEnv) (sheet : List Row)
    (hwf : header_ok sheet) :
    (run_once_and_append env sheet).sheet
      = sheet ++ (run_once_and_append env sheet).appendedRows
    ∧ (env.wsOk = false →
        run_once_and_append env sheet = ⟨sheet, [], .noWorksheet⟩)
    ∧ (env.wsOk = true → env.readFail = true →
        run_once_and_append env sheet = ⟨sheet, [], .readError⟩)
    ∧ (env.appendFail = true →
        (run_once_and_append env sheet).appendedRows = []
        ∧ (run_once_and_append env sheet).sheet = sheet) := by
  refine ⟨run_once_sheet env sheet hwf, ?_, ?_, ?_⟩
  · intro hws
    simp only [run_once_and_append, hws]
    simp
  · intro hws hrd
    simp only [run_once_and_append, hws, hrd]
    simp
  · intro hap
    by_cases hws : env.wsOk = true
    · by_cases hrd : env.readFail = true
      · simp only [run_once_and_append, hws, hrd]
        simp
      · have hrd' : env.readFail = false := by
          revert hrd; cases env.readFail <;> simp
        rw [run_once_eq_core env sheet hwf hws hrd']
        exact run_core_appendFail env sheet sheet.tail hap
    · have hws' : env.wsOk = false := by
        revert hws; cases env.wsOk <;> simp
      simp only [run_once_and_append, hws']
      simp

/-- Environment for the C3 witness: a healthy store whose batch append
raises. -/
def envW3 : RunEnv where
  wsOk := true
  readFail := false
  initFail := none
  found := []
  no_shorts_flag := true
  statResp := fun _ => some [⟨"v3", some ⟨some 9, some 1, some 0⟩⟩]
  appendFail := true
  now := 0
  now2 := fun _ => 0
  wallFmt := fun _ => "W3"
  wallParse := fun _ => some 0

/-- The C3 witness sheet: well-formed header plus one data row. -/
def sheetW3 : List Row := [SHEET_HEADER, ["v3", "c", "p", "q"]]

/-- Witness for C3 (amended): with the batch append failing, the run
leaves the store exactly as it was and appends nothing. -/
theorem only_append_mutates_witness :
    header_ok sheetW3
    ∧ (run_once_and_append envW3 sheetW3).appendedRows = []
    ∧ (run_once_and_append envW3 sheetW3).sheet = sheetW3 :=
  ⟨by decide,
   ((only_append_mutates envW3 sheetW3 (by decide)).2.2.2 rfl).1,
   ((only_append_mutates envW3 sheetW3 (by decide)).2.2.2 rfl).2⟩

/-! ### Claim C2: the tracked-set never shrinks (well-formed stores) -/

/-- One reconstruction step never drops a tracked id. -/
theorem build_tracked_step_ids_mono (P : String → Option Int) (t : Tracked)
    (r : Row) : t.tracked_ids ⊆ (build_tracked_step P t r).tracked_ids := by
  intro x hx
  by_cases h1 : r.length < 4
  · simp [build_tracked_step, h1, hx]
  · by_cases h2 : (r[0]?).getD "" ∈ t.tracked_ids
    · simp [build_tracked_step, h1, h2, hx]
    · simp [build_tracked_step, h1, h2, hx]

/-- Folding further rows never drops a tracked id. -/
theorem build_tracked_foldl_ids_mono (P : String → Option Int) :
    ∀ (rs : List Row) (t : Tracked),
      t.tracked_ids ⊆ (rs.foldl (build_tracked_step P) t).tracked_ids := by
  intro rs
  induction rs with
  | nil => intro t; simp
  | cons r rest ih =>
    intro t
    exact fun x hx =>
      ih (build_tracked_step P t r) (build_tracked_step_ids_mono P t r hx)

/-- Appending rows to the history only grows the reconstructed
tracked-set. -/
theorem build_tracked_append_ids_mono (P : String → Option Int)
    (rows more : List Row) :
    (build_tracked P rows).tracked_ids
      ⊆ (build_tracked P (rows ++ more)).tracked_ids := by
  unfold build_tracked
  rw [List.foldl_append]
  exact build_tracked_foldl_ids_mono P more _

/-- C2 amended: on stores whose header row is well-formed (the only stores
the program itself produces), every item identifier in the reconstructed
tracked-set before a run is still in the reconstructed tracked-set after
that run and after any further sequence of runs, whatever each run's
discovery returns — the history only grows by the batch append.  (On a
store with an absent or malformed header the schema initialization clears
the history, so this монotonicity only holds for well-formed stores.) -/
theorem tracked_ids_monotone (P : String → Option Int)
    (envs : List RunEnv) (sheet : List Row) (hwf : header_ok sheet) :
    ∀ vid ∈ (build_tracked P sheet.tail).tracked_ids,
      vid ∈ (build_tracked P (run_many envs sheet).tail).tracked_ids := by
  induction envs generalizing sheet with
  | nil => intro vid hv; exact hv
  | cons e es ih =>
    intro vid hv
    have hstep : run_many (e :: es) sheet
        = run_many es (run_once_and_append e sheet).sheet := rfl
    rw [hstep]
    refine ih (run_once_and_append e sheet).sheet
      (run_once_header_ok e sheet hwf) vid ?_
    have hsh := run_once_sheet e sheet hwf
    cases sheet with
    | nil => exact absurd (rfl : ([] : List Row).headD [] = []) hwf.1
    | cons h t =>
      rw [hsh]
      have : (h :: t ++ (run_once_and_append e (h :: t)).appendedRows).tail
          = t ++ (run_once_and_append e (h :: t)).appendedRows := rfl
      rw [this]
      exact build_tracked_append_ids_mono P t _ hv

/-- Environment for the C2 counterexample: a run that discovers nothing
and fetches nothing, against a store whose header row is malformed. -/
def envC2 : RunEnv where
  wsOk := true
  readFail := false
  initFail := none
  found := []
  no_shorts_flag := true
  statResp := fun _ => none
  appendFail := false
  now := 0
  now2 := fun _ => 0
  wallFmt := fun _ => ""
  wallParse := fun _ => none

/-- Counterexample to C2 as stated: on a store whose header has fewer than
9 columns, the id "abc" is in the tracked-set reconstructed from the rows
before the run, but the schema initialization clears the store, so "abc"
is no longer tracked after the run. -/
theorem tracked_ids_monotone_refuted :
    "abc" ∈ (build_tracked envC2.wallParse
      [["video_id"], ["abc", "c", "x", "y"]].tail).tracked_ids
    ∧ "abc" ∉ (build_tracked envC2.wallParse
        (run_once_and_append envC2
          [["video_id"], ["abc", "c", "x", "y"]]).sheet.tail).tracked_ids := by
  refine ⟨by decide, by decide⟩

/-- Environment for the C2 witness: a run with nothing new to report. -/
def envW2 : RunEnv where
  wsOk := true
  readFail := false
  initFail := none
  found := []
  no_shorts_flag := true
  statResp := fun _ => none
  appendFail := false
  now := 0
  now2 := fun _ => 0
  wallFmt := fun _ => "W2"
  wallParse := fun _ => some 0

/-- The C2 witness sheet: well-formed header and one tracked id. -/
def sheetW2 : List Row := [SHEET_HEADER, ["keep", "c", "x", "y"]]

/-- Witness for C2 (amended): "keep" stays tracked across two runs on a
well-formed store. -/
theorem tracked_ids_monotone_witness :
    header_ok sheetW2
    ∧ "keep" ∈ (build_tracked (fun _ => none)
        (run_many [envW2, envW2] sheetW2).tail).tracked_ids :=
  ⟨by decide,
   tracked_ids_monotone (fun _ => none) [envW2, envW2] sheetW2 (by decide)
     "keep" (by decide)⟩

/-! ### Claim C1: supporting lemmas -/

/-- Unfold one cons cell of an association-list lookup. -/
theorem lookup_cons {α : Type} (k k' : String) (v : α)
    (t : List (String × α)) :
    List.lookup k' ((k, v) :: t)
      = if k' = k then some v else List.lookup k' t := by
  by_cases h : k' = k
  · rw [if_pos h]
    simp only [List.lookup]
    rw [beq_iff_eq.mpr h]
  · rw [if_neg h]
    simp only [List.lookup]
    rw [beq_eq_false_iff_ne.mpr h]

/-- `dset` binds the written key. -/
theorem lookup_dset_self {α : Type} (l : List (String × α)) (k : String)
    (v : α) : (dset l k v).lookup k = some v := by
  induction l with
  | nil => simp [dset, lookup_cons]
  | cons p t ih =>
    obtain ⟨k', v'⟩ := p
    by_cases h : k' = k
    · simp [dset, h, lookup_cons]
    · simp only [dset, if_neg h, lookup_cons]
      rw [if_neg (Ne.symm h), ih]

/-- `dset` leaves other keys untouched. -/
theorem lookup_dset_ne {α : Type} (l : List (String × α)) (k k' : String)
    (v : α) (h : k' ≠ k) : (dset l k v).lookup k' = l.lookup k' := by
  induction l with
  | nil => simp [dset, lookup_cons, h]
  | cons p t ih =>
    obtain ⟨k0, v0⟩ := p
    by_cases h0 : k0 = k
    · subst h0
      rw [show dset ((k0, v0) :: t) k0 v = (k0, v) :: t from by simp [dset],
        lookup_cons, lookup_cons, if_neg h, if_neg h]
    · simp only [dset, if_neg h0, lookup_cons]
      by_cases h1 : k' = k0
      · rw [if_pos h1, if_pos h1]
      · rw [if_neg h1, if_neg h1, ih]

/-- A reconstruction step never changes what is recorded for an already
tracked id. -/
theorem build_tracked_step_keeps (P : String → Option Int) (t : Tracked)
    (r : Row) (vid : String) (h : vid ∈ t.tracked_ids) :
    (build_tracked_step P t r).video_to_published_past.lookup vid
      = t.video_to_published_past.lookup vid := by
  by_cases h1 : r.length < 4
  · simp [build_tracked_step, h1]
  · by_cases h2 : (r[0]?).getD "" ∈ t.tracked_ids
    · simp [build_tracked_step, h1, h2]
    · have hne : vid ≠ (r[0]?).getD "" := fun he => h2 (he ▸ h)
      cases hp : P ((r[2]?).getD "") with
      | none => simp [build_tracked_step, h1, h2, hp]
      | some w =>
        simp [build_tracked_step, h1, h2, hp, lookup_dset_ne _ _ _ _ hne]

/-- Folding further rows never changes what is recorded for an already
tracked id. -/
theorem build_tracked_foldl_keeps (P : String → Option Int) :
    ∀ (rs : List Row) (t : Tracked) (vid : String),
      vid ∈ t.tracked_ids →
      ((rs.foldl (build_tracked_step P) t).video_to_published_past.lookup vid
        = t.video_to_published_past.lookup vid) := by
  intro rs
  induction rs with
  | nil => intro t vid _; rfl
  | cons r rest ih =>
    intro t vid h
    rw [List.foldl_cons,
      ih (build_tracked_step P t r) vid (build_tracked_step_ids_mono P t r h),
      build_tracked_step_keeps P t r vid h]

/-- The publish instant recorded for an id already tracked by the original
history is unchanged when further rows are appended to the history. -/
theorem build_tracked_append_pub (P : String → Option Int)
    (rows more : List Row) (vid : String)
    (h : vid ∈ (build_tracked P rows).tracked_ids) :
    (build_tracked P (rows ++ more)).video_to_published_past.lookup vid
      = (build_tracked P rows).video_to_published_past.lookup vid := by
  unfold build_tracked
  rw [List.foldl_append]
  exact build_tracked_foldl_keeps P more _ vid h

/-- Every id produced by a reconstruction step is an old id or the row's
first cell. -/
theorem build_tracked_step_ids_cases (P : String → Option Int) (t : Tracked)
    (r : Row) (x : String)
    (h : x ∈ (build_tracked_step P t r).tracked_ids) :
    x ∈ t.tracked_ids ∨ x = r.getD 0 "" := by
  by_cases h1 : r.length < 4
  · simp only [build_tracked_step, if_pos h1] at h
    exact Or.inl h
  · by_cases h2 : (r[0]?).getD "" ∈ t.tracked_ids
    · simp [build_tracked_step, h1, h2] at h
      exact Or.inl h
    · simp [build_tracked_step, h1, h2] at h
      rcases h with h3 | h3
      · exact Or.inl h3
      · exact Or.inr (by simpa using h3)

/-- Every id in the fold comes from the initial state or from some row's
first cell. -/
theorem build_tracked_foldl_ids_cases (P : String → Option Int) :
    ∀ (rs : List Row) (t : Tracked) (x : String),
      x ∈ (rs.foldl (build_tracked_step P) t).tracked_ids →
      x ∈ t.tracked_ids ∨ x ∈ rs.map (fun r => r.getD 0 "") := by
  intro rs
  induction rs with
  | nil => intro t x h; exact Or.inl h
  | cons r rest ih =>
    intro t x h
    rw [List.foldl_cons] at h
    rcases ih (build_tracked_step P t r) x h with h1 | h1
    · rcases build_tracked_step_ids_cases P t r x h1 with h2 | h2
      · exact Or.inl h2
      · exact Or.inr (by simp [h2])
    · exact Or.inr (by simp; right; simpa using h1)

/-- Unfold one discovered item of the union. -/
theorem union_discovered_cons (t : Tracked) (f : String × String × Int)
    (rest : List (String × String × Int)) :
    union_discovered t (f :: rest)
      = union_discovered
          (if f.1 ∈ t.tracked_ids then t
           else ⟨t.tracked_ids ++ [f.1],
                 dset t.video_to_channel_past f.1 f.2.1,
                 dset t.video_to_published_past f.1 f.2.2⟩) rest := rfl

/-- The union never drops a tracked id. -/
theorem union_discovered_ids_mono (t : Tracked)
    (found : List (String × String × Int)) :
    t.tracked_ids ⊆ (union_discovered t found).tracked_ids := by
  induction found generalizing t with
  | nil => exact fun x hx => hx
  | cons f rest ih =>
    intro x hx
    rw [union_discovered_cons]
    by_cases h : f.1 ∈ t.tracked_ids
    · rw [if_pos h]
      exact ih t hx
    · rw [if_neg h]
      exact ih _ (by simp [hx])

/-- The union never changes what is recorded for an already tracked id. -/
theorem union_discovered_pub_keeps (t : Tracked)
    (found : List (String × String × Int)) (vid : String)
    (h : vid ∈ t.tracked_ids) :
    (union_discovered t found).video_to_published_past.lookup vid
      = t.video_to_published_past.lookup vid := by
  induction found generalizing t with
  | nil => rfl
  | cons f rest ih =>
    rw [union_discovered_cons]
    by_cases hf : f.1 ∈ t.tracked_ids
    · rw [if_pos hf]
      exact ih t h
    · rw [if_neg hf]
      have hne : vid ≠ f.1 := fun he => hf (he ▸ h)
      rw [ih _ (by simp [h])]
      exact lookup_dset_ne _ _ _ _ hne

/-- Discovered items that are all already tracked change nothing. -/
theorem union_discovered_noop (t : Tracked)
    (found : List (String × String × Int))
    (h : ∀ x ∈ found, x.1 ∈ t.tracked_ids) :
    union_discovered t found = t := by
  induction found generalizing t with
  | nil => rfl
  | cons f rest ih =>
    rw [union_discovered_cons, if_pos (h f (by simp))]
    exact ih t (fun x hx => h x (by simp [hx]))

/-- After the union step the tracked-set contains every id reconstructed
from the rows. -/
theorem tracked_after_union_ids_mono (env : RunEnv) (rows : List Row) :
    (build_tracked env.wallParse rows).tracked_ids
      ⊆ (tracked_after_union env rows).tracked_ids := by
  unfold tracked_after_union
  by_cases hf : env.no_shorts_flag = true
  · rw [if_pos hf]
    exact fun x hx => hx
  · rw [if_neg hf]
    exact union_discovered_ids_mono _ env.found

/-- The union step does not change the publish instant recorded for an id
already reconstructed from the rows. -/
theorem tracked_after_union_pub_keeps (env : RunEnv) (rows : List Row)
    (vid : String)
    (h : vid ∈ (build_tracked env.wallParse rows).tracked_ids) :
    (tracked_after_union env rows).video_to_published_past.lookup vid
      = (build_tracked env.wallParse rows).video_to_published_past.lookup vid
    := by
  unfold tracked_after_union
  by_cases hf : env.no_shorts_flag = true
  · rw [if_pos hf]
  · rw [if_neg hf]
    exact union_discovered_pub_keeps _ env.found vid h

/-- Splitting the dedup pairs of a concatenated history. -/
theorem existing_pairs_append (r1 r2 : List Row) :
    existing_pairs (r1 ++ r2) = existing_pairs r1 ++ existing_pairs r2 := by
  simp [existing_pairs, List.filterMap_append]

/-- Any row of at least 4 cells contributes its dedup pair. -/
theorem mem_existing_pairs (rows : List Row) (r : Row) (h : r ∈ rows)
    (hl : 4 ≤ r.length) :
    (r.getD 0 "", r.getD 3 "") ∈ existing_pairs rows := by
  unfold existing_pairs
  exact List.mem_filterMap.mpr ⟨r, h, by rw [if_pos hl]⟩

/-- What a run with a working batch append hands to the append call:
either exactly the filtered rows, or nothing because the run aborted with
no tracked ids or an empty stats dict. -/
theorem run_core_appended_cases (env : RunEnv) (store rows : List Row)
    (hap : env.appendFail = false) :
    (run_core env store rows).appendedRows = filtered_for env rows
    ∨ ((run_core env store rows).appendedRows = []
       ∧ ((tracked_after_union env rows).tracked_ids = []
          ∨ stats_for env rows = [])) := by
  simp only [run_core]
  split_ifs with h1 h2 h3 h4
  · exact Or.inr ⟨rfl, Or.inl h1⟩
  · exact Or.inr ⟨rfl, Or.inr h2⟩
  · exact Or.inl h3.symm
  · rw [hap] at h4
    exact absurd h4 (by simp)
  · exact Or.inl rfl

/-- Core of the idempotence argument.  `t0` is the data-row history read
by the earlier run, `R` what that run batch-appended (or nothing if it
aborted before building rows).  A re-run over `t0 ++ R` whose discovery
yields no new items, whose per-id counter snapshot is unchanged and whose
observation-timestamp string is the same builds only rows whose dedup pair
is already present in the rows it read. -/
theorem rerun_pairs_present (envA envB : RunEnv) (t0 R : List Row)
    (hparse : envB.wallParse = envA.wallParse)
    (hts : ts_of envB = ts_of envA)
    (hRcases : R = filtered_for envA t0
      ∨ (R = [] ∧ ((tracked_after_union envA t0).tracked_ids = []
          ∨ stats_for envA t0 = [])))
    (hnonew : envB.no_shorts_flag = true
      ∨ ∀ x ∈ envB.found,
          x.1 ∈ (build_tracked envB.wallParse (t0 ++ R)).tracked_ids)
    (hstats : ∀ vid, (stats_for envB (t0 ++ R)).lookup vid
        = (stats_for envA t0).lookup vid) :
    ∀ r ∈ new_rows_for envB (t0 ++ R),
      (r.getD 0 "", r.getD 3 "") ∈ existing_pairs (t0 ++ R) := by
  intro r hr
  have htB : tracked_after_union envB (t0 ++ R)
      = build_tracked envB.wallParse (t0 ++ R) := by
    unfold tracked_after_union
    rcases hnonew with hf | hsub
    · rw [if_pos hf]
    · by_cases hf : envB.no_shorts_flag = true
      · rw [if_pos hf]
      · rw [if_neg hf]
        exact union_discovered_noop _ envB.found hsub
  unfold new_rows_for build_new_rows at hr
  rw [htB] at hr
  obtain ⟨vid, hvmem, hbr⟩ := List.mem_filterMap.mp hr
  obtain ⟨hr0, hr3, hrlen, s, pub, hsB, hpB⟩ :=
    build_row_shape _ _ _ _ _ _ _ hbr
  rw [hparse] at hvmem hpB
  have hsrc : vid ∈ (build_tracked envA.wallParse t0).tracked_ids
      ∨ vid ∈ R.map (fun row => row.getD 0 "") := by
    have hsplit : build_tracked envA.wallParse (t0 ++ R)
        = R.foldl (build_tracked_step envA.wallParse)
            (build_tracked envA.wallParse t0) := by
      unfold build_tracked
      rw [List.foldl_append]
    rw [hsplit] at hvmem
    exact build_tracked_foldl_ids_cases envA.wallParse R _ vid hvmem
  rw [hr0, hr3, hts]
  by_cases hvR : vid ∈ R.map (fun row => row.getD 0 "")
  · obtain ⟨r', hr'R, hr'0⟩ := List.mem_map.mp hvR
    rcases hRcases with hRf | ⟨hRnil, -⟩
    · have hr'R0 := hr'R
      rw [hRf] at hr'R
      unfold filtered_for at hr'R
      have hr'new := List.mem_of_mem_filter hr'R
      unfold new_rows_for build_new_rows at hr'new
      obtain ⟨vid', hvid'A, hbr'⟩ := List.mem_filterMap.mp hr'new
      obtain ⟨h0', h3', hlen', -⟩ := build_row_shape _ _ _ _ _ _ _ hbr'
      have hpair : (r'.getD 0 "", r'.getD 3 "") ∈ existing_pairs (t0 ++ R) :=
        mem_existing_pairs _ r' (List.mem_append.mpr (Or.inr hr'R0))
          (by rw [hlen']; omega)
      rw [hr'0, h3'] at hpair
      exact hpair
    · rw [hRnil] at hr'R
      exact absurd hr'R (List.not_mem_nil r')
  · have hv0 : vid ∈ (build_tracked envA.wallParse t0).tracked_ids := by
      rcases hsrc with h | h
      · exact h
      · exact absurd h hvR
    have hpub0 : (build_tracked envA.wallParse
        t0).video_to_published_past.lookup vid = some pub := by
      rw [← build_tracked_append_pub envA.wallParse t0 R vid hv0]
      exact hpB
    have hsA : (stats_for envA t0).lookup vid = some s := by
      rw [← hstats vid]
      exact hsB
    rcases hRcases with hRf | ⟨hRnil, hor⟩
    · have hvA' : vid ∈ (tracked_after_union envA t0).tracked_ids :=
        tracked_after_union_ids_mono envA t0 hv0
      have hpA' : (tracked_after_union envA
          t0).video_to_published_past.lookup vid = some pub := by
        rw [tracked_after_union_pub_keeps envA t0 vid hv0]
        exact hpub0
      have hbrA := build_row_eq envA.wallFmt envA.now2
        (tracked_after_union envA t0) (stats_for envA t0) (ts_of envA)
        vid s pub hsA hpA'
      obtain ⟨rA, hbrA'⟩ : ∃ rA, build_row envA.wallFmt envA.now2
          (tracked_after_union envA t0) (stats_for envA t0) (ts_of envA)
          vid = some rA := ⟨_, hbrA⟩
      obtain ⟨hA0, hA3, hAlen, -⟩ := build_row_shape _ _ _ _ _ _ _ hbrA'
      have hrAmem : rA ∈ new_rows_for envA t0 := by
        unfold new_rows_for build_new_rows
        exact List.mem_filterMap.mpr ⟨vid, hvA', hbrA'⟩
      by_cases hdrop : (rA.getD 0 "", rA.getD 3 "") ∈ existing_pairs t0
      · rw [hA0, hA3] at hdrop
        rw [existing_pairs_append]
        exact List.mem_append.mpr (Or.inl hdrop)
      · have hkept : rA ∈ filtered_for envA t0 := by
          unfold filtered_for
          exact List.mem_filter.mpr ⟨hrAmem, by simpa using hdrop⟩
        rw [← hRf] at hkept
        exact absurd (List.mem_map.mpr ⟨rA, hkept, hA0⟩) hvR
    · rcases hor with hids | hst0
      · exact absurd (tracked_after_union_ids_mono envA t0 hv0)
          (by simp [hids])
      · rw [hst0] at hsA
        exact absurd hsA (by simp [List.lookup])

/-- C1: re-running the reconciler on the history left by an earlier run —
an earlier run against a well-formed store whose worksheet, read and batch
append all worked — with no newly discovered items, an unchanged per-id
counter snapshot and the same formatted observation-timestamp string,
appends zero rows: every newly built sample's (identifier,
observation-timestamp) pair is already among the pairs of the rows read at
step 1, so everything is dropped before the batch append and the persisted
store is unchanged. -/
theorem rerun_appends_nothing (envA envB : RunEnv) (sheet0 : List Row)
    (hwf : header_ok sheet0)
    (hws : envA.wsOk = true) (hrd : envA.readFail = false)
    (hap : envA.appendFail = false)
    (hparse : envB.wallParse = envA.wallParse)
    (hnonew : envB.no_shorts_flag = true
      ∨ ∀ x ∈ envB.found, x.1 ∈ (build_tracked envB.wallParse
          (run_once_and_append envA sheet0).sheet.tail).tracked_ids)
    (hts : ts_of envB = ts_of envA)
    (hstats : ∀ vid,
      (stats_for envB (run_once_and_append envA sheet0).sheet.tail).lookup vid
        = (stats_for envA sheet0.tail).lookup vid) :
    (∀ r ∈ new_rows_for envB (run_once_and_append envA sheet0).sheet.tail,
        (r.getD 0 "", r.getD 3 "")
          ∈ existing_pairs (run_once_and_append envA sheet0).sheet.tail)
    ∧ (run_once_and_append envB (run_once_and_append envA sheet0).sheet).sheet
        = (run_once_and_append envA sheet0).sheet
    ∧ (run_once_and_append envB
        (run_once_and_append envA sheet0).sheet).appendedRows = [] := by
  obtain ⟨hh1, hh2⟩ := hwf
  cases sheet0 with
  | nil => exact absurd (rfl : ([] : List Row).headD [] = []) hh1
  | cons h0 t0 =>
    have hA : run_once_and_append envA (h0 :: t0)
        = run_core envA (h0 :: t0) t0 :=
      run_once_eq_core envA (h0 :: t0) ⟨hh1, hh2⟩ hws hrd
    have hsheet : (run_once_and_append envA (h0 :: t0)).sheet
        = (h0 :: t0) ++ (run_once_and_append envA (h0 :: t0)).appendedRows :=
      run_once_sheet envA (h0 :: t0) ⟨hh1, hh2⟩
    have htail : (run_once_and_append envA (h0 :: t0)).sheet.tail
        = t0 ++ (run_once_and_append envA (h0 :: t0)).appendedRows := by
      rw [hsheet]
      rfl
    have hRcases : (run_once_and_append envA (h0 :: t0)).appendedRows
        = filtered_for envA t0
      ∨ ((run_once_and_append envA (h0 :: t0)).appendedRows = []
         ∧ ((tracked_after_union envA t0).tracked_ids = []
            ∨ stats_for envA t0 = [])) := by
      have hc := run_core_appended_cases envA (h0 :: t0) t0 hap
      rw [← hA] at hc
      exact hc
    rw [htail] at hnonew hstats ⊢
    have hmain := rerun_pairs_present envA envB t0
      (run_once_and_append envA (h0 :: t0)).appendedRows hparse hts hRcases
      hnonew hstats
    refine ⟨hmain, ?_⟩
    have hfiltB : filtered_for envB
        (t0 ++ (run_once_and_append envA (h0 :: t0)).appendedRows) = [] := by
      unfold filtered_for
      refine List.filter_eq_nil_iff.mpr ?_
      intro r hrB
      simp only [decide_eq_true_eq, Decidable.not_not]
      exact hmain r hrB
    have hwf1 : header_ok (run_once_and_append envA (h0 :: t0)).sheet :=
      run_once_header_ok envA (h0 :: t0) ⟨hh1, hh2⟩
    by_cases hwsB : envB.wsOk = true
    · by_cases hrdB : envB.readFail = true
      · simp only [run_once_and_append, hwsB, hrdB]
        simp
      · have hrdB' : envB.readFail = false := by
          revert hrdB; cases envB.readFail <;> simp
        rw [run_once_eq_core envB _ hwf1 hwsB hrdB']
        simp only [run_core]
        rw [htail]
        split_ifs with h1 h2 h3
        · exact ⟨rfl, rfl⟩
        · exact ⟨rfl, rfl⟩
        · exact ⟨rfl, rfl⟩
    · have hwsB' : envB.wsOk = false := by
        revert hwsB; cases envB.wsOk <;> simp
      simp only [run_once_and_append, hwsB']
      simp

/-- Environment for the C1 witness: one tracked video with live counters,
discovery finding nothing, a constant clock. -/
def envW1 : RunEnv where
  wsOk := true
  readFail := false
  initFail := none
  found := []
  no_shorts_flag := true
  statResp := fun _ => some [⟨"v1", some ⟨some 5, some 1, some 1⟩⟩]
  appendFail := false
  now := 0
  now2 := fun _ => 0
  wallFmt := fun _ => "T"
  wallParse := fun _ => some 0

/-- The C1 witness sheet: header plus one historical row for "v1". -/
def sheetW1 : List Row := [SHEET_HEADER, ["v1", "ch", "x", "y"]]

/-- Witness for C1: the first run appends a (nonempty) batch of rows; the
identical re-run at the same observation-timestamp string appends nothing
and leaves the sheet unchanged. -/
theorem rerun_appends_nothing_witness :
    (run_once_and_append envW1 sheetW1).appendedRows ≠ []
    ∧ (run_once_and_append envW1
        (run_once_and_append envW1 sheetW1).sheet).appendedRows = []
    ∧ (run_once_and_append envW1
          (run_once_and_append envW1 sheetW1).sheet).sheet
        = (run_once_and_append envW1 sheetW1).sheet :=
  ⟨by decide,
   (rerun_appends_nothing envW1 envW1 sheetW1 (by decide) rfl rfl rfl rfl
     (Or.inl rfl) rfl (fun _ => rfl)).2.2,
   (rerun_appends_nothing envW1 envW1 sheetW1 (by decide) rfl rfl rfl rfl
     (Or.inl rfl) rfl (fun _ => rfl)).2.1⟩
